import Mathlib

/-!
Verification of the DeQ device-status cache / async-refresh engine and the
task scheduler, shallowly embedded from `src/core/device_status.py`,
`src/core/scheduler.py` and `src/api/tasks.py`.

Python dictionaries keyed by strings are modelled as association lists
(`Dict`), Python sets as `Finset String`, fallible external calls
(subprocess, SSH, ping) as `Except Unit` oracles supplied per refresh, and
Python `datetime` values as a record of calendar fields compared through an
order-preserving key (valid datetimes only, as in CPython).
-/

namespace Deq

/-- Association-list model of a Python `dict` with string keys:
lookup returns the first binding, update prepends after dropping the old
binding. -/
abbrev Dict (α : Type) : Type := List (String × α)

def dictGet {α : Type} (m : Dict α) (k : String) : Option α :=
  ((List.find? (fun p => p.1 == k) m)).map (·.2)

def dictSet {α : Type} (m : Dict α) (k : String) (v : α) : Dict α :=
  (k, v) :: List.filter (fun p => p.1 != k) m

def dictEmpty {α : Type} : Dict α := []

theorem dictGet_dictSet_self {α : Type} (m : Dict α) (k : String) (v : α) :
    dictGet (dictSet m k v) k = some v := by
  simp [dictGet, dictSet, List.find?]

/-- Container entry as seen by `_check_and_notify_changes`
(`src/core/device_status.py:131`): either a dict carrying an optional
`status` key or an arbitrary value rendered with `str`. -/
inductive ContainerInfo : Type
  | asDict (status : Option String)
  | asStr (s : String)
deriving DecidableEq

/-- State string of a container entry, mirroring
`container_info.get('status', 'unknown') if isinstance(container_info, dict)
else str(container_info)`. -/
def containerState : ContainerInfo → String
  | .asDict st => st.getD "unknown"
  | .asStr s => s

/-- Resource stats snapshot as read by `_check_resource_thresholds`
via `stats.get('cpu') / stats.get('mem') / stats.get('disk') /
stats.get('temp')`. -/
structure Stats where
  cpu : Option Int
  mem : Option Int
  disk : Option Int
  temp : Option Int
deriving DecidableEq

/-- Per-device alert configuration, `device.get('alerts', {})`: each field
is the optional value stored under the corresponding key; call sites apply
the defaults (`online`→True, `cpu`→90, `ram`→90, `disk_usage`→90,
`cpu_temp`→80). -/
structure Alerts where
  online : Option Bool
  cpu : Option Int
  ram : Option Int
  disk_usage : Option Int
  cpu_temp : Option Int
deriving DecidableEq

/-- Device record from the configuration store as consumed by
`src/core/device_status.py` and `src/api/tasks.py`; `ssh_user`/`ssh_port`
model `device.get('ssh', {}).get('user')` / `.get('port', 22)`. -/
structure Device where
  id : String
  name : Option String
  is_host : Bool
  ip : String
  ssh_user : Option String
  ssh_port : Option Nat
  alerts : Alerts
deriving DecidableEq

/-- Python truthiness of `device.get('ssh', {}).get('user')`: present and
non-empty. -/
def strTruthy : Option String → Bool
  | none => false
  | some s => s ≠ ""

/-- Status dict built by `do_refresh` (`src/core/device_status.py:63,78`):
keys `online`, `stats`, `containers` are always present. -/
structure Status where
  online : Bool
  stats : Option Stats
  containers : Dict ContainerInfo
deriving DecidableEq

/-- Module-level mutable state of `src/core/device_status.py`: the status
cache, the in-flight set and the two previous-state maps. -/
structure CoreState where
  cache : Dict Status
  inFlight : Finset String
  prevOnline : Dict Bool
  prevContainers : Dict (Dict String)
deriving DecidableEq

/-- Initial module state: all maps empty, no refresh in flight. -/
def initialState : CoreState :=
  { cache := dictEmpty, inFlight := ∅,
    prevOnline := dictEmpty, prevContainers := dictEmpty }

/-- Embeds `get_cached_status` (`src/core/device_status.py:25`). -/
def get_cached_status (st : CoreState) (device_id : String) : Option Status :=
  dictGet st.cache device_id

/-- Embeds `set_cached_status` (`src/core/device_status.py:31`). -/
def set_cached_status (st : CoreState) (device_id : String) (status : Status) :
    CoreState :=
  { st with cache := dictSet st.cache device_id status }

/-- Notification events handed to the dispatcher
(`notifications.manager.notify_*`). -/
inductive Event : Type
  | deviceOnline (dev_id dev_name : String)
  | deviceOffline (dev_id dev_name : String)
  | containerStopped (dev_id dev_name container_name : String)
  | highResource (dev_id dev_name resource : String) (value threshold : Int)
deriving DecidableEq

/-- Outcomes of the external calls made by one execution of the refresh
body; each call may raise (`Except.error`), matching an arbitrary Python
exception.  `dispatchOk` is the success flag of the result dict returned by
the notification manager (which catches its own errors and never raises
into the caller); the refresh body ignores it. -/
structure Ext where
  containers : Except Unit (Dict ContainerInfo)
  localStats : Except Unit Stats
  ping : Except Unit Bool
  remoteStats : Except Unit (Option Stats)
  dispatchOk : Event → Bool

/-- Embeds `refresh_device_status_async` (`src/core/device_status.py:43`)
up to the point where the background thread is started: returns the new
module state and whether a refresh body was scheduled.  If the id is
already in flight the call returns with the state untouched and nothing
scheduled; otherwise the id is added to the in-flight set and the body is
scheduled. -/
def refresh_device_status_async (device : Device) (st : CoreState) :
    CoreState × Bool :=
  if device.id ∈ st.inFlight then (st, false)
  else ({ st with inFlight := insert device.id st.inFlight }, true)

/-- Check of `_check_resource_thresholds` (`src/core/device_status.py:154`)
as the list of high-resource events it dispatches. -/
def check_resource_thresholds (device : Device) (stats : Stats)
    (alerts_config : Alerts) : List Event :=
  let dev_id := device.id
  let dev_name := device.name.getD dev_id
  let cpuEvents :=
    match stats.cpu with
    | some v =>
        if v > alerts_config.cpu.getD 90 then
          [Event.highResource dev_id dev_name "CPU" v (alerts_config.cpu.getD 90)]
        else []
    | none => []
  let ramEvents :=
    match stats.mem with
    | some v =>
        if v > alerts_config.ram.getD 90 then
          [Event.highResource dev_id dev_name "RAM" v (alerts_config.ram.getD 90)]
        else []
    | none => []
  let diskEvents :=
    match stats.disk with
    | some v =>
        if v > alerts_config.disk_usage.getD 90 then
          [Event.highResource dev_id dev_name "Disk" v (alerts_config.disk_usage.getD 90)]
        else []
    | none => []
  let tempEvents :=
    match stats.temp with
    | some v =>
        if v > alerts_config.cpu_temp.getD 80 then
          [Event.highResource dev_id dev_name "Temperature" v (alerts_config.cpu_temp.getD 80)]
        else []
    | none => []
  cpuEvents ++ ramEvents ++ diskEvents ++ tempEvents

/-- Online/offline transition events dispatched by
`_check_and_notify_changes` (`src/core/device_status.py:107` to `:122`):
only for non-host devices, only when a previous state exists, differs from
the new value, and the device's online alerts are enabled (default on). -/
def online_transition_events (dev_id dev_name : String) (is_host : Bool)
    (new_online : Bool) (prev_online : Option Bool) (alerts_config : Alerts) :
    List Event :=
  if !is_host then
    match prev_online with
    | some p =>
        if p != new_online then
          if alerts_config.online.getD true then
            if new_online then [Event.deviceOnline dev_id dev_name]
            else [Event.deviceOffline dev_id dev_name]
          else []
        else []
    | none => []
  else []

/-- Container-stop events dispatched by `_check_and_notify_changes`
(`src/core/device_status.py:127` to `:140`): one per container in the new
snapshot whose previous state was `running` and whose new state is not. -/
def container_stopped_events (dev_id dev_name : String)
    (new_containers : Dict ContainerInfo) (prev_containers : Dict String) :
    List Event :=
  new_containers.flatMap (fun p =>
    let new_state := containerState p.2
    let prev_state := dictGet prev_containers p.1
    if prev_state == some "running" && new_state != "running" then
      [Event.containerStopped dev_id dev_name p.1]
    else [])

/-- Embeds `_check_and_notify_changes` (`src/core/device_status.py:95`):
returns the updated previous-state maps together with the dispatched
events, each paired with the dispatcher-reported success flag (which the
source ignores).  The notifications module is present in this repository,
so the `except ImportError` guards never fire and are not modelled. -/
def check_and_notify_changes (device : Device) (new_status : Status)
    (dispatchOk : Event → Bool) (st : CoreState) :
    CoreState × List (Event × Bool) :=
  let dev_id := device.id
  let dev_name := device.name.getD dev_id
  let alerts_config := device.alerts
  let onlineEvents :=
    online_transition_events dev_id dev_name device.is_host new_status.online
      (dictGet st.prevOnline dev_id) alerts_config
  let st1 :=
    if !device.is_host then
      { st with prevOnline := dictSet st.prevOnline dev_id new_status.online }
    else st
  let new_containers := new_status.containers
  let containerEvents :=
    container_stopped_events dev_id dev_name new_containers
      ((dictGet st1.prevContainers dev_id).getD dictEmpty)
  let newContainerMap := new_containers.map (fun p => (p.1, containerState p.2))
  let st2 :=
    { st1 with prevContainers := dictSet st1.prevContainers dev_id newContainerMap }
  let thresholdEvents :=
    match new_status.stats with
    | some stats =>
        if new_status.online then
          check_resource_thresholds device stats alerts_config
        else []
    | none => []
  let events := onlineEvents ++ containerEvents ++ thresholdEvents
  (st2, events.map (fun e => (e, dispatchOk e)))

/-- Fetch phase of the refresh body (`src/core/device_status.py:57` to
`:82`): container statuses, then online flag and stats depending on
`is_host`; any raising external call aborts the phase. -/
def refresh_fetch_status (device : Device) (ext : Ext) : Except Unit Status := do
  let container_statuses ← ext.containers
  if device.is_host then
    let stats ← ext.localStats
    pure { online := true, stats := some stats, containers := container_statuses }
  else
    let online ← ext.ping
    let stats ←
      if online && strTruthy device.ssh_user then ext.remoteStats
      else pure none
    pure { online := online, stats := stats, containers := container_statuses }

/-- Embeds `do_refresh` (`src/core/device_status.py:55`): runs the fetch
phase, change detection and the cache store under a `try`/`finally` whose
`finally` always discards the device id from the in-flight set. -/
def do_refresh (device : Device) (ext : Ext) (st : CoreState) :
    CoreState × List (Event × Bool) :=
  match refresh_fetch_status device ext with
  | .error _ =>
      ({ st with inFlight := st.inFlight.erase device.id }, [])
  | .ok status =>
      let r := check_and_notify_changes device status ext.dispatchOk st
      let st2 := set_cached_status r.1 device.id status
      ({ st2 with inFlight := st2.inFlight.erase device.id }, r.2)

/-! ## Calendar model for `datetime` as used by `src/api/tasks.py` -/

/-- Python `datetime` value (proleptic Gregorian calendar, microsecond
precision).  Only valid datetimes arise in the source, since `datetime`
constructors validate their arguments. -/
structure DateTime where
  year : Nat
  month : Nat
  day : Nat
  hour : Nat
  minute : Nat
  second : Nat
  usec : Nat
deriving DecidableEq

/-- Gregorian leap-year rule. -/
def isLeapYear (y : Nat) : Bool :=
  (y % 4 == 0 && y % 100 != 0) || y % 400 == 0

/-- Length of a month in the Gregorian calendar. -/
def daysInMonth (y m : Nat) : Nat :=
  if m == 2 then (if isLeapYear y then 29 else 28)
  else if m == 4 || m == 6 || m == 9 || m == 11 then 30
  else 31

/-- Validity of a datetime, exactly the checks performed by Python's
`datetime` constructor (year bounds aside, which never matter here). -/
def DateTime.valid (t : DateTime) : Bool :=
  1 ≤ t.month && t.month ≤ 12 && 1 ≤ t.day && t.day ≤ daysInMonth t.year t.month
    && t.hour < 24 && t.minute < 60 && t.second < 60 && t.usec < 1000000

/-- Order-preserving key: on valid datetimes, `key` is strictly monotone
with respect to the field-lexicographic (that is, chronological) order, so
Python's `datetime` comparisons are embedded as `Nat` comparisons of keys. -/
def DateTime.key (t : DateTime) : Nat :=
  (((((t.year * 12 + (t.month - 1)) * 31 + (t.day - 1)) * 24 + t.hour) * 60
      + t.minute) * 60 + t.second) * 1000000 + t.usec

/-- Date part of the key: counts (year, month, day) lexicographically. -/
def DateTime.dayKey (t : DateTime) : Nat :=
  (t.year * 12 + (t.month - 1)) * 31 + (t.day - 1)

/-- Month part of the key: counts (year, month) lexicographically. -/
def DateTime.ymKey (t : DateTime) : Nat :=
  t.year * 12 + (t.month - 1)

/-- Python `t + timedelta(days=1)` on a valid datetime. -/
def addOneDay (t : DateTime) : DateTime :=
  if t.day < daysInMonth t.year t.month then { t with day := t.day + 1 }
  else if t.month < 12 then { t with month := t.month + 1, day := 1 }
  else { t with year := t.year + 1, month := 1, day := 1 }

/-- Python `t + timedelta(hours=1)` on a valid datetime. -/
def addOneHour (t : DateTime) : DateTime :=
  if t.hour < 23 then { t with hour := t.hour + 1 }
  else addOneDay { t with hour := 0 }

/-- Python `t + timedelta(days=n)` on a valid datetime. -/
def addDays : Nat → DateTime → DateTime
  | 0, t => t
  | n + 1, t => addDays n (addOneDay t)

/-- Days in the years before year `y` (proleptic Gregorian, closed form as
in CPython's `_days_before_year`). -/
def daysBeforeYear (y : Nat) : Nat :=
  (y - 1) * 365 + (y - 1) / 4 - (y - 1) / 100 + (y - 1) / 400

/-- Days in the months of year `y` before month `m`. -/
def daysBeforeMonth (y m : Nat) : Nat :=
  (List.range (m - 1)).foldl (fun acc i => acc + daysInMonth y (i + 1)) 0

/-- Python `date.toordinal()`: 0001-01-01 has ordinal 1. -/
def toOrdinal (t : DateTime) : Nat :=
  daysBeforeYear t.year + daysBeforeMonth t.year t.month + t.day

/-- Python `datetime.weekday()`: Monday is 0; 0001-01-01 is a Monday. -/
def pyWeekday (t : DateTime) : Nat :=
  (toOrdinal t - 1) % 7

/-- Python `datetime(year, month, day, hour, minute, 0)`: `some` of the
datetime when the arguments are valid, `none` when the constructor raises
`ValueError`. -/
def mkDatetime (y m d hh mm : Nat) : Option DateTime :=
  let t : DateTime :=
    { year := y, month := m, day := d, hour := hh, minute := mm,
      second := 0, usec := 0 }
  if t.valid then some t else none

/-! ## Next-run computation, `calculate_next_run` (`src/api/tasks.py:42`) -/

/-- Schedule descriptor `task.get('schedule', {})`; `time` is the result of
`map(int, time_str.split(':'))` (`none` when that parse raises, in which
case the source falls back to `(3, 0)`); `day` and `date` are the optional
values stored under those keys. -/
structure Schedule where
  stype : Option String
  time : Option (Nat × Nat)
  day : Option Nat
  date : Option Nat
deriving DecidableEq

/-- Parsed next_run field of a task record: the stored ISO string either
parses to a datetime or makes `datetime.fromisoformat` raise. -/
inductive NextRunVal : Type
  | val (t : DateTime)
  | malformed
deriving DecidableEq

/-- Task record fields used by the scheduler and `calculate_next_run`. -/
structure STask where
  id : String
  enabled : Option Bool
  schedule : Schedule
  next_run : Option NextRunVal
deriving DecidableEq

/-- Hourly branch (`src/api/tasks.py:58`). -/
def hourlyNext (now : DateTime) (minute : Nat) : DateTime :=
  let r : DateTime := { now with minute := minute, second := 0, usec := 0 }
  if r.key ≤ now.key then addOneHour r else r

/-- Daily branch (`src/api/tasks.py:63`). -/
def dailyNext (now : DateTime) (hour minute : Nat) : DateTime :=
  let r : DateTime :=
    { now with hour := hour, minute := minute, second := 0, usec := 0 }
  if r.key ≤ now.key then addOneDay r else r

/-- Weekly branch (`src/api/tasks.py:68`). -/
def weeklyNext (now : DateTime) (day hour minute : Nat) : DateTime :=
  let r : DateTime :=
    { now with hour := hour, minute := minute, second := 0, usec := 0 }
  let py_day : Nat := if day > 0 then (day - 1) % 7 else 6
  let days_ahead : Int := (py_day : Int) - (pyWeekday now : Int)
  let days_ahead :=
    if days_ahead < 0 || (days_ahead == 0 && r.key ≤ now.key) then days_ahead + 7
    else days_ahead
  addDays days_ahead.toNat r

/-- One attempt of the monthly loop body followed by the month/year
rollover (`src/api/tasks.py:81` to `:94`); `fuel` counts the remaining
iterations of `range(12)`, and exhausting it is the `for`/`else` branch
returning `None`. -/
def monthlyGo (now : DateTime) (date hour minute : Nat) :
    Nat → Nat → Nat → Option DateTime
  | 0, _, _ => none
  | fuel + 1, y, m =>
      match mkDatetime y m date hour minute with
      | some t =>
          if now.key < t.key then some t
          else if m < 12 then monthlyGo now date hour minute fuel y (m + 1)
          else monthlyGo now date hour minute fuel (y + 1) 1
      | none =>
          if m < 12 then monthlyGo now date hour minute fuel y (m + 1)
          else monthlyGo now date hour minute fuel (y + 1) 1

/-- Monthly branch (`src/api/tasks.py:78`): scan at most 12 months starting
from the current one. -/
def monthlyNext (now : DateTime) (date hour minute : Nat) : Option DateTime :=
  monthlyGo now date hour minute 12 now.year now.month

/-- Embeds `calculate_next_run` (`src/api/tasks.py:42`).  The result is
`Except`: `.error ()` models a `ValueError` escaping from `now.replace`
when the parsed hour or minute is out of range (the monthly branch catches
that error internally), `.ok none` models returning `None`, `.ok (some t)`
the ISO string of `t`. -/
def calculate_next_run (task : STask) (now : DateTime) :
    Except Unit (Option DateTime) :=
  if !(task.enabled.getD true) then .ok none
  else
    let schedule := task.schedule
    let schedule_type := schedule.stype.getD "daily"
    let hm := schedule.time.getD (3, 0)
    let hour := hm.1
    let minute := hm.2
    if schedule_type == "hourly" then
      if minute < 60 then .ok (some (hourlyNext now minute)) else .error ()
    else if schedule_type == "daily" then
      if hour < 24 && minute < 60 then .ok (some (dailyNext now hour minute))
      else .error ()
    else if schedule_type == "weekly" then
      if hour < 24 && minute < 60 then
        .ok (some (weeklyNext now (schedule.day.getD 0) hour minute))
      else .error ()
    else if schedule_type == "monthly" then
      .ok (monthlyNext now (schedule.date.getD 1) hour minute)
    else .ok none

/-! ## Scheduler poll, `TaskScheduler._check_tasks` (`src/core/scheduler.py:61`) -/

/-- Processing of a single task during one poll: returns the task record as
it stands in the shared configuration afterwards and whether `run_task` was
invoked for it.  Mirrors the loop body: disabled or absent/malformed
next_run skips; a past-due task is run and its next_run reassigned from
`calculate_next_run`, unless that call raises, which the surrounding
`except (ValueError, TypeError)` turns into a skip after the run already
started. -/
def checkTask (now : DateTime) (t : STask) : STask × Bool :=
  if !(t.enabled.getD true) then (t, false)
  else
    match t.next_run with
    | none => (t, false)
    | some NextRunVal.malformed => (t, false)
    | some (NextRunVal.val nr) =>
        if nr.key ≤ now.key then
          match calculate_next_run t now with
          | .ok v => ({ t with next_run := v.map NextRunVal.val }, true)
          | .error _ => (t, true)
        else (t, false)

/-- Embeds `_check_tasks`: maps the poll over the task list of the shared
configuration object and collects the ids for which the run routine was
invoked.  `datetime.now()` is sampled once at the top of the poll and used
for both the due check and the recomputation. -/
def check_tasks (now : DateTime) (tasks : List STask) :
    List STask × List String :=
  (tasks.map (fun t => (checkTask now t).1),
   (tasks.filter (fun t => (checkTask now t).2)).map (fun t => t.id))

/-! ## Backup command construction, `_run_backup_task` (`src/api/tasks.py:174`) -/

/-- Remote rsync endpoint `f"{ssh_user}@{ip}:{path}"` with the source's
default user `root`. -/
def remoteSpec (d : Device) (path : String) : String :=
  (d.ssh_user.getD "root") ++ "@" ++ d.ip ++ ":" ++ path

/-- SSH transport option `f"ssh -p {ssh_port} -o StrictHostKeyChecking=no -o ConnectTimeout=10"`. -/
def sshTransportOpt (port : Nat) : String :=
  "ssh -p " ++ toString port ++ " -o StrictHostKeyChecking=no -o ConnectTimeout=10"

/-- Embeds the rsync command construction of `_run_backup_task`
(`src/api/tasks.py:199` to `:225`): base options, optional `--delete`, the
`-e` transport added for a remote source, the remote-source spec, the
`-e` transport added for a remote destination only when none is present
yet, and the final `[rsync] + opts + [source, dest]` list. -/
def build_rsync_cmd (source_device dest_device : Device)
    (source_path dest_path : String) (deleteOpt : Bool) : List String :=
  let rsync_opts := ["-avz", "--stats"] ++ (if deleteOpt then ["--delete"] else [])
  let source_is_host := source_device.is_host
  let step1 :=
    if source_is_host then (rsync_opts, source_path)
    else
      let ssh_port := source_device.ssh_port.getD 22
      (rsync_opts ++ ["-e", sshTransportOpt ssh_port],
       remoteSpec source_device source_path)
  let rsync_opts := step1.1
  let dest_is_host := dest_device.is_host
  let step2 :=
    if dest_is_host then (rsync_opts, dest_path)
    else
      let ssh_port := dest_device.ssh_port.getD 22
      (if !(rsync_opts.contains "-e") then
        (rsync_opts ++ ["-e", sshTransportOpt ssh_port],
         remoteSpec dest_device dest_path)
       else (rsync_opts, remoteSpec dest_device dest_path))
  ["rsync"] ++ step2.1 ++ [step1.2, step2.2]

/-- Discriminates the online/offline transition notifications among all
dispatched events. -/
def isOnlineTransitionEvent : Event → Bool
  | .deviceOnline _ _ => true
  | .deviceOffline _ _ => true
  | _ => false

/-! ## Concrete sample data used by witnesses and counterexamples -/

/-- Device record with no per-device alert overrides. -/
def emptyAlerts : Alerts := ⟨none, none, none, none, none⟩

/-- Remote device with default alert settings. -/
def devRemote : Device :=
  ⟨"pi1", some "Pi", false, "10.0.0.2", some "alice", none, emptyAlerts⟩

/-- Remote device whose record disables online alerts
(`alerts = {"online": False}`). -/
def devRemoteAlertsOff : Device :=
  ⟨"pi1", some "Pi", false, "10.0.0.2", some "alice", none,
   ⟨some false, none, none, none, none⟩⟩

/-- Host device record. -/
def devHost : Device :=
  ⟨"host", some "DeQ Host", true, "localhost", none, none, emptyAlerts⟩

/-- Remote backup source. -/
def srcRemote : Device :=
  ⟨"src", some "Src", false, "10.0.0.2", some "alice", none, emptyAlerts⟩

/-- Remote backup destination. -/
def dstRemote : Device :=
  ⟨"dst", some "Dst", false, "10.0.0.3", some "bob", some 2222, emptyAlerts⟩

/-- Module state remembering that device `pi1` was last seen online. -/
def statePrevOnline : CoreState :=
  { initialState with prevOnline := [("pi1", true)] }

/-- Refresh-body oracles whose first external call (the container fetch)
raises. -/
def extContainersFail : Ext :=
  { containers := .error (), localStats := .error (), ping := .error (),
    remoteStats := .error (), dispatchOk := fun _ => true }

/-- Status snapshot of an offline device with no containers. -/
def statusOffline : Status := ⟨false, none, []⟩

/-- Refresh-body oracles for a successful host refresh with no containers
and empty local stats. -/
def extHostOk : Ext :=
  { containers := .ok [], localStats := .ok ⟨none, none, none, none⟩,
    ping := .ok true, remoteStats := .ok none, dispatchOk := fun _ => true }

/-- Status snapshot where container `web` is now exited and container `db`
is now running. -/
def statusContainers : Status :=
  ⟨true, none, [("web", .asStr "exited"), ("db", .asStr "running")]⟩

/-- Module state remembering device `pi1`'s container `web` as running and
`db` as exited. -/
def statePrevContainers : CoreState :=
  { initialState with
    prevContainers := [("pi1", [("web", "running"), ("db", "exited")])],
    prevOnline := [("pi1", true)] }

/-- Refresh-body oracles for a remote device found offline whose container
fetch reports `web` exited and `db` running, and whose every notification
dispatch fails. -/
def extRemoteOffline : Ext :=
  { containers := .ok [("web", .asStr "exited"), ("db", .asStr "running")],
    localStats := .ok ⟨none, none, none, none⟩, ping := .ok false,
    remoteStats := .ok none, dispatchOk := fun _ => false }

/-- Enabled daily task scheduled at 03:00. -/
def dailyTask : STask :=
  ⟨"t-daily", none, ⟨some "daily", some (3, 0), none, none⟩, none⟩

/-- Enabled monthly task scheduled for day 31 at 03:00. -/
def monthlyTask : STask :=
  ⟨"t-monthly", none, ⟨some "monthly", some (3, 0), none, some 31⟩, none⟩

/-- Enabled daily task whose time string parsed to the out-of-range hour 25
(for example `"25:00"`), with a past-due stored next_run. -/
def badTimeTask : STask :=
  ⟨"t-bad", none, ⟨some "daily", some (25, 0), none, none⟩,
   some (NextRunVal.val ⟨2024, 5, 10, 3, 0, 0, 0⟩)⟩

/-- Enabled daily 03:00 task with a stored past-due next_run. -/
def scheduledDailyTask : STask :=
  ⟨"t-daily2", none, ⟨some "daily", some (3, 0), none, none⟩,
   some (NextRunVal.val ⟨2024, 5, 10, 3, 0, 0, 0⟩)⟩

/-- Poll instant 2024-05-10 04:00, one hour past the stored next_run of
`scheduledDailyTask` and `badTimeTask`. -/
def pollNow : DateTime := ⟨2024, 5, 10, 4, 0, 0, 0⟩

/-! ## Theorems -/

theorem dictGet_dictSet {α : Type} (m : Dict α) (k : String) (v : α) :
    dictGet (dictSet m k v) k = some v := by
  simp [dictGet, dictSet, List.find?]

/-- C1: for every device id, at most one refresh is in flight at any time:
a `refresh_device_status_async` call for a device whose id is already in
the in-flight set returns with the state untouched and no refresh body
scheduled (the request is dropped, not queued); otherwise the id is added
to the in-flight set before the body is scheduled, so that an immediately
following second call is a no-op. -/
theorem refreshAsync_at_most_one_in_flight (device : Device) (st : CoreState) :
    (device.id ∈ st.inFlight →
      refresh_device_status_async device st = (st, false)) ∧
    (device.id ∉ st.inFlight →
      (refresh_device_status_async device st).2 = true ∧
      device.id ∈ (refresh_device_status_async device st).1.inFlight ∧
      refresh_device_status_async device (refresh_device_status_async device st).1
        = ((refresh_device_status_async device st).1, false)) := by
  unfold refresh_device_status_async
  constructor
  · intro h
    simp [h]
  · intro h
    simp [h]

/-- Witness for C1 at a concrete device and the initial state: the first
call schedules a refresh and marks the id in flight, the second call is a
no-op. -/
theorem refreshAsync_at_most_one_in_flight_witness :
    (refresh_device_status_async devRemote initialState).2 = true ∧
    devRemote.id ∈ (refresh_device_status_async devRemote initialState).1.inFlight ∧
    refresh_device_status_async devRemote
        (refresh_device_status_async devRemote initialState).1
      = ((refresh_device_status_async devRemote initialState).1, false) :=
  (refreshAsync_at_most_one_in_flight devRemote initialState).2 (by decide)

/-- C2: the refresh body removes the device id from the in-flight set on
every exit path — the oracles `ext` range over all outcomes of the external
calls, including any of them raising — so after `do_refresh` finishes the
id is never in the in-flight set. -/
theorem do_refresh_clears_in_flight (device : Device) (ext : Ext)
    (st : CoreState) :
    device.id ∉ (do_refresh device ext st).1.inFlight := by
  unfold do_refresh
  cases h : refresh_fetch_status device ext <;>
    simp [Finset.not_mem_erase]

/-- C10: if the refresh body raises at any step before its final store
(that is, during the fetch phase — change detection and dispatch cannot
raise, since the notification manager returns failures instead of raising),
the cached status map is left exactly as it was: the cache is replaced only
as the last step of a refresh that completed fetching and change
detection. -/
theorem do_refresh_failure_preserves_cache (device : Device) (ext : Ext)
    (st : CoreState) (h : refresh_fetch_status device ext = .error ()) :
    (do_refresh device ext st).1.cache = st.cache := by
  unfold do_refresh
  rw [h]

/-- Witness for C10: with oracles whose container fetch raises, the fetch
phase fails and the cache of a state holding a previous snapshot for the
device is unchanged. -/
theorem do_refresh_failure_preserves_cache_witness :
    refresh_fetch_status devRemote extContainersFail = .error () ∧
    (do_refresh devRemote extContainersFail
        (set_cached_status initialState "pi1" statusOffline)).1.cache
      = (set_cached_status initialState "pi1" statusOffline).cache :=
  ⟨rfl,
   do_refresh_failure_preserves_cache devRemote extContainersFail
     (set_cached_status initialState "pi1" statusOffline) rfl⟩

/-- C3 counterexample: for a backup task between two non-host devices the
source builds one direct rsync command whose source and destination
arguments are both remote `user@ip:path` endpoint specifications — there is
no local staging copy and no cleanup step anywhere in `_run_backup_task` —
refuting the claim that remote-to-remote transfers go through a local
staging copy. -/
theorem backup_remote_to_remote_counterexample :
    srcRemote.is_host = false ∧ dstRemote.is_host = false ∧
    build_rsync_cmd srcRemote dstRemote "/data/" "/backup/" false =
      ["rsync", "-avz", "--stats", "-e",
       "ssh -p 22 -o StrictHostKeyChecking=no -o ConnectTimeout=10",
       remoteSpec srcRemote "/data/", remoteSpec dstRemote "/backup/"] ∧
    remoteSpec srcRemote "/data/" = "alice@10.0.0.2:/data/" ∧
    remoteSpec dstRemote "/backup/" = "bob@10.0.0.3:/backup/" := by
  refine ⟨rfl, rfl, ?_, rfl, rfl⟩
  rfl

/-- C3 amended: a backup task between two non-host devices runs a single
direct rsync whose source and destination are both remote ssh endpoint
specifications, using the source device's ssh transport option (the
destination's port is ignored because a `-e` option is already present);
no local staging copy is involved. -/
theorem backup_remote_to_remote_direct (s d : Device) (sp dp : String)
    (del : Bool) (hs : s.is_host = false) (hd : d.is_host = false) :
    build_rsync_cmd s d sp dp del =
      ["rsync"] ++ (["-avz", "--stats"] ++ (if del then ["--delete"] else []))
        ++ ["-e", sshTransportOpt (s.ssh_port.getD 22)]
        ++ [remoteSpec s sp, remoteSpec d dp] := by
  unfold build_rsync_cmd
  cases del <;> simp [hs, hd]

/-- Witness for C3's amended statement at concrete remote devices and
paths. -/
theorem backup_remote_to_remote_direct_witness :
    build_rsync_cmd srcRemote dstRemote "/data/" "/backup/" true =
      ["rsync"] ++ (["-avz", "--stats"] ++ ["--delete"])
        ++ ["-e", sshTransportOpt 22]
        ++ [remoteSpec srcRemote "/data/", remoteSpec dstRemote "/backup/"] :=
  backup_remote_to_remote_direct srcRemote dstRemote "/data/" "/backup/" true
    rfl rfl

theorem list_any_map {α β : Type} (l : List α) (f : α → β) (p : β → Bool) :
    (l.map f).any p = l.any (fun a => p (f a)) := by
  induction l with
  | nil => rfl
  | cons a t ih => simp [List.any_cons, ih]

theorem container_stopped_events_shape (i n : String)
    (nc : Dict ContainerInfo) (pc : Dict String) (e : Event)
    (he : e ∈ container_stopped_events i n nc pc) :
    ∃ q ∈ nc, e = Event.containerStopped i n q.1 := by
  unfold container_stopped_events at he
  obtain ⟨p, hp, hep⟩ := List.mem_flatMap.1 he
  refine ⟨p, hp, ?_⟩
  by_cases hc : (dictGet pc p.1 == some "running"
      && containerState p.2 != "running") = true
  · simp only [hc, if_true, List.mem_singleton] at hep
    exact hep
  · simp only [Bool.not_eq_true] at hc
    simp [hc] at hep

theorem check_resource_thresholds_shape (dev : Device) (stats : Stats)
    (al : Alerts) (e : Event)
    (he : e ∈ check_resource_thresholds dev stats al) :
    ∃ r v t, e = Event.highResource dev.id (dev.name.getD dev.id) r v t := by
  unfold check_resource_thresholds at he
  simp only [List.mem_append] at he
  rcases he with ((h | h) | h) | h <;>
    · split at h
      case _ v _ =>
        split at h
        · simp only [List.mem_singleton] at h
          exact ⟨_, _, _, h⟩
        · simp at h
      case _ => simp at h

theorem container_stopped_events_no_online (i n : String)
    (nc : Dict ContainerInfo) (pc : Dict String) :
    (container_stopped_events i n nc pc).any isOnlineTransitionEvent
      = false := by
  rw [List.any_eq_false]
  intro e he
  obtain ⟨q, _, rfl⟩ := container_stopped_events_shape i n nc pc e he
  simp [isOnlineTransitionEvent]

theorem check_resource_thresholds_no_online (dev : Device) (stats : Stats)
    (al : Alerts) :
    (check_resource_thresholds dev stats al).any isOnlineTransitionEvent
      = false := by
  rw [List.any_eq_false]
  intro e he
  obtain ⟨r, v, t, rfl⟩ := check_resource_thresholds_shape dev stats al e he
  simp [isOnlineTransitionEvent]

theorem online_transition_events_any (i n : String) (ih no : Bool)
    (po : Option Bool) (al : Alerts) :
    (online_transition_events i n ih no po al).any isOnlineTransitionEvent
        = true ↔
      (ih = false ∧ ∃ p, po = some p ∧ p ≠ no ∧ al.online.getD true = true) := by
  unfold online_transition_events
  cases ih
  · cases po with
    | none => simp
    | some p =>
        by_cases hpn : p = no
        · simp [hpn]
        · by_cases hal : al.online.getD true = true
          · cases no <;>
              simp [hpn, hal, isOnlineTransitionEvent, bne_iff_ne]
          · simp [hpn, hal, bne_iff_ne]
  · simp

/-- C5 counterexample: device `pi1` is not the host, a prior online state
(`true`) is recorded, and the newly observed online value (`false`)
differs, yet no notification at all is dispatched, because the device
record disables online alerts (`alerts = {"online": False}`) — an extra
condition the claim omits. -/
theorem online_notification_iff_counterexample :
    devRemoteAlertsOff.is_host = false ∧
    dictGet statePrevOnline.prevOnline devRemoteAlertsOff.id = some true ∧
    statusOffline.online = false ∧
    (check_and_notify_changes devRemoteAlertsOff statusOffline
        (fun _ => true) statePrevOnline).2 = [] := by
  decide

/-- C5 amended: a "device online"/"device offline" notification is
dispatched if and only if the device is not the host, a prior recorded
online state exists, the new online value differs from it, and the
device's online alerts are enabled (the default when unset); in
particular the first-ever refresh of a device never dispatches one. -/
theorem online_notification_iff (device : Device) (ns : Status)
    (dOk : Event → Bool) (st : CoreState) :
    ((check_and_notify_changes device ns dOk st).2.any
        (fun p => isOnlineTransitionEvent p.1)) = true ↔
      (device.is_host = false ∧
        ∃ p, dictGet st.prevOnline device.id = some p ∧ p ≠ ns.online ∧
          device.alerts.online.getD true = true) := by
  unfold check_and_notify_changes
  simp only [List.map_append, List.any_append, list_any_map]
  rw [container_stopped_events_no_online]
  have hth :
      (match ns.stats with
        | some stats =>
            if ns.online then
              check_resource_thresholds device stats device.alerts
            else []
        | none => ([] : List Event)).any isOnlineTransitionEvent = false := by
    cases ns.stats with
    | none => rfl
    | some stats =>
        by_cases h : ns.online = true
        · simp only [h, if_true]
          exact check_resource_thresholds_no_online device stats device.alerts
        · simp only [Bool.not_eq_true] at h
          simp [h]
  rw [hth]
  simp only [Bool.or_false]
  exact online_transition_events_any device.id (device.name.getD device.id)
    device.is_host ns.online (dictGet st.prevOnline device.id) device.alerts

theorem check_and_notify_changes_prev_state (device : Device) (ns : Status)
    (dOk : Event → Bool) (st : CoreState) :
    dictGet (check_and_notify_changes device ns dOk st).1.prevContainers
        device.id
      = some (ns.containers.map (fun p => (p.1, containerState p.2))) ∧
    (device.is_host = false →
      dictGet (check_and_notify_changes device ns dOk st).1.prevOnline
          device.id
        = some ns.online) := by
  unfold check_and_notify_changes
  constructor
  · exact dictGet_dictSet _ _ _
  · intro h
    simp only [h, Bool.not_false, if_true]
    exact dictGet_dictSet _ _ _

/-- C6 counterexample: after a completed refresh of the host device, whose
newly observed online value is `true`, the remembered prior online flag is
not overwritten — it remains absent — because the source only writes
`_previous_online_state` inside the non-host branch.  This refutes the
claim that the prior online flag is unconditionally overwritten for every
device. -/
theorem previous_state_host_counterexample :
    devHost.is_host = true ∧
    refresh_fetch_status devHost extHostOk
      = .ok ⟨true, some ⟨none, none, none, none⟩, []⟩ ∧
    dictGet (do_refresh devHost extHostOk initialState).1.prevOnline
        devHost.id = none := by
  exact ⟨rfl, rfl, rfl⟩

/-- C6 amended: after every refresh whose fetch phase completes, the
remembered per-container state map is unconditionally overwritten with the
newly observed states for every device, and the prior online flag is
unconditionally overwritten with the newly observed value for every
non-host device (the host never records one) — in both cases regardless of
whether any notification was triggered and regardless of the dispatch
outcome reported for each event (`ext.dispatchOk` is universally
quantified, covering failed dispatches). -/
theorem previous_state_overwritten (device : Device) (ext : Ext)
    (st : CoreState) (status : Status)
    (h : refresh_fetch_status device ext = .ok status) :
    dictGet (do_refresh device ext st).1.prevContainers device.id
      = some (status.containers.map (fun p => (p.1, containerState p.2))) ∧
    (device.is_host = false →
      dictGet (do_refresh device ext st).1.prevOnline device.id
        = some status.online) := by
  unfold do_refresh
  rw [h]
  exact check_and_notify_changes_prev_state device status ext.dispatchOk st

/-- Witness for C6's amended statement: a remote device going offline with
every notification dispatch failing; both previous-state maps hold the
newly observed values afterwards. -/
theorem previous_state_overwritten_witness :
    dictGet (do_refresh devRemote extRemoteOffline statePrevContainers).1.prevContainers
        devRemote.id = some [("web", "exited"), ("db", "running")] ∧
    dictGet (do_refresh devRemote extRemoteOffline statePrevContainers).1.prevOnline
        devRemote.id = some false :=
  ⟨(previous_state_overwritten devRemote extRemoteOffline statePrevContainers
      ⟨false, none, [("web", .asStr "exited"), ("db", .asStr "running")]⟩ rfl).1,
   (previous_state_overwritten devRemote extRemoteOffline statePrevContainers
      ⟨false, none, [("web", .asStr "exited"), ("db", .asStr "running")]⟩ rfl).2 rfl⟩

theorem online_transition_events_shape (i n : String) (ih no : Bool)
    (po : Option Bool) (al : Alerts) (e : Event)
    (he : e ∈ online_transition_events i n ih no po al) :
    e = Event.deviceOnline i n ∨ e = Event.deviceOffline i n := by
  unfold online_transition_events at he
  cases ih
  · cases po with
    | none => simp at he
    | some p =>
        simp only [Bool.not_false, if_true] at he
        split at he
        · split at he
          · split at he <;> simp_all
          · simp at he
        · simp at he
  · simp at he

theorem count_container_stopped_events_not_mem (i n : String)
    (nc : Dict ContainerInfo) (pc : Dict String) (c : String)
    (hc : c ∉ nc.map Prod.fst) :
    (container_stopped_events i n nc pc).count (Event.containerStopped i n c)
      = 0 := by
  rw [List.count_eq_zero]
  intro hmem
  obtain ⟨q, hq, he⟩ := container_stopped_events_shape i n nc pc _ hmem
  simp only [Event.containerStopped.injEq] at he
  exact hc (List.mem_map.2 ⟨q, hq, he.2.2.symm⟩)

theorem count_container_stopped_events (i n : String) (nc : Dict ContainerInfo)
    (pc : Dict String) (c : String) (info : ContainerInfo)
    (hmem : (c, info) ∈ nc) (hnodup : (nc.map Prod.fst).Nodup) :
    (container_stopped_events i n nc pc).count (Event.containerStopped i n c)
      = if dictGet pc c = some "running" ∧ containerState info ≠ "running"
        then 1 else 0 := by
  induction nc with
  | nil => cases hmem
  | cons p t ih =>
      have hsplit : container_stopped_events i n (p :: t) pc
          = (if dictGet pc p.1 == some "running"
                && containerState p.2 != "running"
              then [Event.containerStopped i n p.1] else [])
            ++ container_stopped_events i n t pc := rfl
      rw [hsplit, List.count_append]
      simp only [List.map_cons, List.nodup_cons] at hnodup
      rcases List.mem_cons.1 hmem with heq | hmem'
      · have hp1 : p.1 = c := by rw [← heq]
        have hrest :
            (container_stopped_events i n t pc).count
              (Event.containerStopped i n c) = 0 :=
          count_container_stopped_events_not_mem i n t pc c (hp1 ▸ hnodup.1)
        rw [hrest, Nat.add_zero, ← heq]
        by_cases hcond :
            dictGet pc c = some "running" ∧ containerState info ≠ "running"
        · rw [if_pos hcond]
          have : (dictGet pc (c, info).1 == some "running"
              && containerState (c, info).2 != "running") = true := by
            simp only [beq_iff_eq, bne_iff_ne, Bool.and_eq_true]
            exact ⟨hcond.1, hcond.2⟩
          rw [if_pos this]
          simp
        · rw [if_neg hcond]
          have : ¬ ((dictGet pc (c, info).1 == some "running"
              && containerState (c, info).2 != "running") = true) := by
            simp only [beq_iff_eq, bne_iff_ne, Bool.and_eq_true]
            exact fun h => hcond ⟨h.1, h.2⟩
          rw [if_neg this]
          simp
      · have hne : p.1 ≠ c := by
          intro hpc
          exact hnodup.1 (hpc ▸ List.mem_map.2 ⟨(c, info), hmem', rfl⟩)
        have hblock :
            (if dictGet pc p.1 == some "running"
                && containerState p.2 != "running"
              then [Event.containerStopped i n p.1] else []).count
              (Event.containerStopped i n c) = 0 := by
          split
          · rw [List.count_eq_zero]
            intro hm
            simp only [List.mem_singleton] at hm
            exact hne (by
              have := hm
              simp only [Event.containerStopped.injEq] at this
              exact this.2.2.symm)
          · rfl
        rw [hblock, Nat.zero_add]
        exact ih hmem' hnodup.2

/-- C7: for every container present in a device's new snapshot (snapshot
keys are unique, as Python dict keys are), exactly one "container stopped"
notification is dispatched when its previously recorded state was
`running` and its new state is anything else, and none otherwise — in
particular a transition into `running` dispatches nothing. -/
theorem container_stop_notification (device : Device) (ns : Status)
    (dOk : Event → Bool) (st : CoreState) (c : String) (info : ContainerInfo)
    (hmem : (c, info) ∈ ns.containers)
    (hnodup : (ns.containers.map Prod.fst).Nodup) :
    ((check_and_notify_changes device ns dOk st).2.map Prod.fst).count
        (Event.containerStopped device.id (device.name.getD device.id) c)
      = if dictGet ((dictGet st.prevContainers device.id).getD dictEmpty) c
            = some "running" ∧ containerState info ≠ "running"
        then 1 else 0 := by
  unfold check_and_notify_changes
  simp only [List.map_map]
  have hid : (Prod.fst ∘ fun e => (e, dOk e)) = (id : Event → Event) := rfl
  rw [hid, List.map_id, List.count_append, List.count_append]
  have honline :
      (online_transition_events device.id (device.name.getD device.id)
          device.is_host ns.online (dictGet st.prevOnline device.id)
          device.alerts).count
        (Event.containerStopped device.id (device.name.getD device.id) c)
        = 0 := by
    rw [List.count_eq_zero]
    intro hm
    rcases online_transition_events_shape _ _ _ _ _ _ _ hm with h | h <;>
      simp at h
  have hthresh :
      (match ns.stats with
        | some stats =>
            if ns.online then
              check_resource_thresholds device stats device.alerts
            else []
        | none => ([] : List Event)).count
        (Event.containerStopped device.id (device.name.getD device.id) c)
        = 0 := by
    cases hs : ns.stats with
    | none => rfl
    | some stats =>
        show (if ns.online = true then
            check_resource_thresholds device stats device.alerts
          else []).count
            (Event.containerStopped device.id (device.name.getD device.id) c)
          = 0
        by_cases ho : ns.online = true
        · rw [if_pos ho, List.count_eq_zero]
          intro hm
          obtain ⟨r, v, t, he⟩ :=
            check_resource_thresholds_shape device stats device.alerts _ hm
          simp at he
        · rw [if_neg ho]
          rfl
  have hprev : (if (!device.is_host) = true then
      { st with prevOnline := dictSet st.prevOnline device.id ns.online }
    else st).prevContainers = st.prevContainers := by
    split <;> rfl
  rw [honline, hthresh, hprev, Nat.zero_add, Nat.add_zero]
  exact count_container_stopped_events device.id (device.name.getD device.id)
    ns.containers _ c info hmem hnodup

/-- Witness for C7 at concrete data: container `web`, previously `running`
and now `exited`, produces exactly one stop notification; container `db`,
previously `exited` and now `running`, produces none. -/
theorem container_stop_notification_witness :
    ((check_and_notify_changes devRemote statusContainers (fun _ => true)
        statePrevContainers).2.map Prod.fst).count
      (Event.containerStopped "pi1" "Pi" "web") = 1 ∧
    ((check_and_notify_changes devRemote statusContainers (fun _ => true)
        statePrevContainers).2.map Prod.fst).count
      (Event.containerStopped "pi1" "Pi" "db") = 0 := by
  constructor
  · have h := container_stop_notification devRemote statusContainers
      (fun _ => true) statePrevContainers "web" (.asStr "exited")
      (by decide) (by decide)
    simpa using h
  · have h := container_stop_notification devRemote statusContainers
      (fun _ => true) statePrevContainers "db" (.asStr "running")
      (by decide) (by decide)
    simpa using h

/-- C4 counterexample: an enabled task whose schedule time parsed to the
out-of-range hour 25 and whose stored next_run is past due.  The poll
invokes the run routine for it, but recomputing next_run raises
`ValueError` inside `now.replace`, the surrounding
`except (ValueError, TypeError)` swallows it, and the task record — still
carrying the stale past-due next_run — is left untouched: next_run is
neither recomputed nor persisted, refuting the claim's universal
"invokes the run routine and then recomputes and persists next_run". -/
theorem check_tasks_malformed_counterexample :
    badTimeTask.enabled.getD true = true ∧
    badTimeTask.next_run = some (NextRunVal.val ⟨2024, 5, 10, 3, 0, 0, 0⟩) ∧
    DateTime.key ⟨2024, 5, 10, 3, 0, 0, 0⟩ ≤ pollNow.key ∧
    calculate_next_run badTimeTask pollNow = .error () ∧
    check_tasks pollNow [badTimeTask] = ([badTimeTask], ["t-bad"]) := by
  refine ⟨rfl, rfl, by decide, rfl, ?_⟩
  rfl

/-- C4 amended: on each scheduler poll, every enabled task whose stored
next_run parses and is past due has the run routine invoked for it, and —
provided recomputation does not raise — its next_run is then recomputed
from `calculate_next_run` and stored back into the shared configuration
object (the in-memory configuration store all readers see; the durable
file write happens when the started run completes and saves the same
shared object). -/
theorem check_tasks_due_task (now : DateTime) (tasks : List STask) (i : Nat)
    (t : STask) (nr : DateTime) (v : Option DateTime)
    (ht : tasks[i]? = some t)
    (hen : t.enabled.getD true = true)
    (hnr : t.next_run = some (NextRunVal.val nr))
    (hdue : nr.key ≤ now.key)
    (hcalc : calculate_next_run t now = .ok v) :
    (check_tasks now tasks).1[i]?
        = some { t with next_run := v.map NextRunVal.val } ∧
    t.id ∈ (check_tasks now tasks).2 := by
  have hstep : checkTask now t
      = ({ t with next_run := v.map NextRunVal.val }, true) := by
    unfold checkTask
    rw [hen, hnr]
    simp only [Bool.not_true, Bool.false_eq_true, if_false]
    rw [if_pos hdue, hcalc]
  constructor
  · unfold check_tasks
    rw [List.getElem?_map, ht]
    simp [hstep]
  · unfold check_tasks
    have htmem : t ∈ tasks := by
      have := List.getElem?_eq_some_iff.1 ht
      obtain ⟨hlen, hget⟩ := this
      exact hget ▸ List.getElem_mem hlen
    exact List.mem_map.2
      ⟨t, List.mem_filter.2 ⟨htmem, by rw [hstep]⟩, rfl⟩

/-- Witness for C4's amended statement: a due daily 03:00 task polled at
04:00 is run and its next_run becomes 03:00 of the next day. -/
theorem check_tasks_due_task_witness :
    (check_tasks pollNow [scheduledDailyTask]).1[0]?
        = some { scheduledDailyTask with
                 next_run := some (NextRunVal.val ⟨2024, 5, 11, 3, 0, 0, 0⟩) } ∧
    scheduledDailyTask.id ∈ (check_tasks pollNow [scheduledDailyTask]).2 :=
  check_tasks_due_task pollNow [scheduledDailyTask] 0 scheduledDailyTask
    ⟨2024, 5, 10, 3, 0, 0, 0⟩ (some ⟨2024, 5, 11, 3, 0, 0, 0⟩)
    rfl rfl rfl (by decide) rfl

theorem valid_bounds {t : DateTime} (h : t.valid = true) :
    1 ≤ t.month ∧ t.month ≤ 12 ∧ 1 ≤ t.day ∧
      t.day ≤ daysInMonth t.year t.month ∧ t.hour < 24 ∧ t.minute < 60 ∧
      t.second < 60 ∧ t.usec < 1000000 := by
  simp only [DateTime.valid, Bool.and_eq_true, decide_eq_true_eq] at h
  exact ⟨h.1.1.1.1.1.1.1, h.1.1.1.1.1.1.2, h.1.1.1.1.1.2, h.1.1.1.1.2,
    h.1.1.1.2, h.1.1.2, h.1.2, h.2⟩

theorem valid_of_bounds {t : DateTime}
    (h : 1 ≤ t.month ∧ t.month ≤ 12 ∧ 1 ≤ t.day ∧
      t.day ≤ daysInMonth t.year t.month ∧ t.hour < 24 ∧ t.minute < 60 ∧
      t.second < 60 ∧ t.usec < 1000000) : t.valid = true := by
  simp only [DateTime.valid, Bool.and_eq_true, decide_eq_true_eq]
  exact ⟨⟨⟨⟨⟨⟨⟨h.1, h.2.1⟩, h.2.2.1⟩, h.2.2.2.1⟩, h.2.2.2.2.1⟩,
    h.2.2.2.2.2.1⟩, h.2.2.2.2.2.2.1⟩, h.2.2.2.2.2.2.2⟩

theorem daysInMonth_le_31 (y m : Nat) : daysInMonth y m ≤ 31 := by
  unfold daysInMonth
  split_ifs <;> omega

theorem daysInMonth_pos (y m : Nat) : 1 ≤ daysInMonth y m := by
  unfold daysInMonth
  split_ifs <;> omega

theorem key_decomp (t : DateTime) :
    t.key = t.dayKey * 86400000000
      + (((t.hour * 60 + t.minute) * 60 + t.second) * 1000000 + t.usec) := by
  unfold DateTime.key DateTime.dayKey
  ring

theorem dayKey_decomp (t : DateTime) :
    t.dayKey = t.ymKey * 31 + (t.day - 1) := rfl

theorem ymKey_decomp (t : DateTime) :
    t.ymKey = t.year * 12 + (t.month - 1) := rfl

theorem addOneDay_hour (t : DateTime) : (addOneDay t).hour = t.hour := by
  unfold addOneDay
  split_ifs <;> rfl

theorem addOneDay_minute (t : DateTime) : (addOneDay t).minute = t.minute := by
  unfold addOneDay
  split_ifs <;> rfl

theorem addOneDay_second (t : DateTime) : (addOneDay t).second = t.second := by
  unfold addOneDay
  split_ifs <;> rfl

theorem addOneDay_usec (t : DateTime) : (addOneDay t).usec = t.usec := by
  unfold addOneDay
  split_ifs <;> rfl

theorem mk_valid (y m d hh mm ss us : Nat) (h1 : 1 ≤ m) (h2 : m ≤ 12)
    (h3 : 1 ≤ d) (h4 : d ≤ daysInMonth y m) (h5 : hh < 24) (h6 : mm < 60)
    (h7 : ss < 60) (h8 : us < 1000000) :
    (DateTime.mk y m d hh mm ss us).valid = true :=
  valid_of_bounds ⟨h1, h2, h3, h4, h5, h6, h7, h8⟩

theorem addOneDay_valid {t : DateTime} (h : t.valid = true) :
    (addOneDay t).valid = true := by
  obtain ⟨h1, h2, h3, h4, h5, h6, h7, h8⟩ := valid_bounds h
  unfold addOneDay
  split_ifs with hd hm
  · exact mk_valid _ _ _ _ _ _ _ h1 h2 (by omega) (by omega) h5 h6 h7 h8
  · exact mk_valid _ _ _ _ _ _ _ (by omega) (by omega) (by omega)
      (daysInMonth_pos t.year (t.month + 1)) h5 h6 h7 h8
  · exact mk_valid _ _ _ _ _ _ _ (by omega) (by omega) (by omega)
      (daysInMonth_pos (t.year + 1) 1) h5 h6 h7 h8

theorem addOneDay_dayKey_gap {t : DateTime} (ht : t.valid = true) :
    t.dayKey < (addOneDay t).dayKey ∧
    ∀ u : DateTime, u.valid = true → t.dayKey < u.dayKey →
      (addOneDay t).dayKey ≤ u.dayKey := by
  obtain ⟨h1, h2, h3, h4, h5, h6, h7, h8⟩ := valid_bounds ht
  have et : t.dayKey = (t.year * 12 + (t.month - 1)) * 31 + (t.day - 1) := rfl
  have hdim31 := daysInMonth_le_31 t.year t.month
  unfold addOneDay
  split_ifs with hd hm
  · constructor
    · show t.dayKey < (t.year * 12 + (t.month - 1)) * 31 + (t.day + 1 - 1)
      omega
    · intro u _ hu
      show (t.year * 12 + (t.month - 1)) * 31 + (t.day + 1 - 1) ≤ u.dayKey
      omega
  · constructor
    · show t.dayKey < (t.year * 12 + (t.month + 1 - 1)) * 31 + (1 - 1)
      omega
    · intro u hvu hu
      obtain ⟨g1, g2, g3, g4, _, _, _, _⟩ := valid_bounds hvu
      have eu : u.dayKey = (u.year * 12 + (u.month - 1)) * 31 + (u.day - 1) := rfl
      have hu31 : u.day ≤ 31 := le_trans g4 (daysInMonth_le_31 u.year u.month)
      show (t.year * 12 + (t.month + 1 - 1)) * 31 + (1 - 1) ≤ u.dayKey
      rcases Nat.lt_trichotomy (u.year * 12 + (u.month - 1))
          (t.year * 12 + (t.month - 1)) with hc | hc | hc
      · omega
      · have hy : u.year = t.year := by omega
        have hmo : u.month = t.month := by omega
        have : u.day ≤ daysInMonth t.year t.month := by
          rw [← hy, ← hmo]; exact g4
        omega
      · omega
  · constructor
    · show t.dayKey < ((t.year + 1) * 12 + (1 - 1)) * 31 + (1 - 1)
      omega
    · intro u hvu hu
      obtain ⟨g1, g2, g3, g4, _, _, _, _⟩ := valid_bounds hvu
      have eu : u.dayKey = (u.year * 12 + (u.month - 1)) * 31 + (u.day - 1) := rfl
      have hu31 : u.day ≤ 31 := le_trans g4 (daysInMonth_le_31 u.year u.month)
      show ((t.year + 1) * 12 + (1 - 1)) * 31 + (1 - 1) ≤ u.dayKey
      rcases Nat.lt_trichotomy (u.year * 12 + (u.month - 1))
          (t.year * 12 + (t.month - 1)) with hc | hc | hc
      · omega
      · have hy : u.year = t.year := by omega
        have hmo : u.month = t.month := by omega
        have : u.day ≤ daysInMonth t.year t.month := by
          rw [← hy, ← hmo]; exact g4
        omega
      · omega

theorem dailyNext_correct (now : DateTime) (h mi : Nat) (hh : h < 24)
    (hm : mi < 60) (hval : now.valid = true) :
    (dailyNext now h mi).valid = true ∧ (dailyNext now h mi).hour = h ∧
    (dailyNext now h mi).minute = mi ∧ (dailyNext now h mi).second = 0 ∧
    (dailyNext now h mi).usec = 0 ∧ now.key < (dailyNext now h mi).key ∧
    ∀ u : DateTime, u.valid = true → u.hour = h → u.minute = mi →
      u.second = 0 → u.usec = 0 → now.key < u.key →
      (dailyNext now h mi).key ≤ u.key := by
  obtain ⟨b1, b2, b3, b4, b5, b6, b7, b8⟩ := valid_bounds hval
  have hr0v : (DateTime.mk now.year now.month now.day h mi 0 0).valid = true :=
    mk_valid _ _ _ _ _ _ _ b1 b2 b3 b4 hh hm (by omega) (by omega)
  have ednow : (DateTime.mk now.year now.month now.day h mi 0 0).dayKey
      = now.dayKey := rfl
  have em1 : (DateTime.mk now.year now.month now.day h mi 0 0).hour = h := rfl
  have em2 : (DateTime.mk now.year now.month now.day h mi 0 0).minute = mi :=
    rfl
  have em3 : (DateTime.mk now.year now.month now.day h mi 0 0).second = 0 := rfl
  have em4 : (DateTime.mk now.year now.month now.day h mi 0 0).usec = 0 := rfl
  have k2 := key_decomp now
  have k3 := key_decomp (DateTime.mk now.year now.month now.day h mi 0 0)
  rw [em1, em2, em3, em4, ednow] at k3
  by_cases hc : (DateTime.mk now.year now.month now.day h mi 0 0).key ≤ now.key
  · have hres : dailyNext now h mi
        = addOneDay (DateTime.mk now.year now.month now.day h mi 0 0) := by
      unfold dailyNext
      rw [if_pos hc]
    obtain ⟨hgap1, hgap2⟩ := addOneDay_dayKey_gap hr0v
    rw [ednow] at hgap1
    have k1 := key_decomp
      (addOneDay (DateTime.mk now.year now.month now.day h mi 0 0))
    rw [addOneDay_hour, addOneDay_minute, addOneDay_second, addOneDay_usec,
      em1, em2, em3, em4] at k1
    rw [hres]
    refine ⟨addOneDay_valid hr0v, addOneDay_hour _, addOneDay_minute _,
      addOneDay_second _, addOneDay_usec _, ?_, ?_⟩
    · omega
    · intro u huv hu1 hu2 hu3 hu4 hlt
      have ku := key_decomp u
      rw [hu1, hu2, hu3, hu4] at ku
      by_cases hdu :
          (DateTime.mk now.year now.month now.day h mi 0 0).dayKey < u.dayKey
      · have := hgap2 u huv hdu
        omega
      · exfalso
        omega
  · have hres : dailyNext now h mi
        = DateTime.mk now.year now.month now.day h mi 0 0 := by
      unfold dailyNext
      rw [if_neg hc]
    rw [hres]
    refine ⟨hr0v, rfl, rfl, rfl, rfl, by omega, ?_⟩
    intro u huv hu1 hu2 hu3 hu4 hlt
    have ku := key_decomp u
    rw [hu1, hu2, hu3, hu4] at ku
    obtain ⟨g1, g2, g3, g4, g5, g6, g7, g8⟩ := valid_bounds huv
    omega

/-- C8 counterexample: for the daily 03:00 schedule computed at exactly
2024-05-10 03:00:00.000000, the instant `now` is itself an occurrence of
the configured hour:minute at or after `now`, yet the source rolls to
2024-05-11 03:00 because its comparison is `next_run <= now`; so the
result is the next occurrence strictly after `now`, not "at or after"
`now` as claimed. -/
theorem daily_at_or_after_counterexample :
    dailyTask.enabled.getD true = true ∧
    dailyTask.schedule.stype.getD "daily" = "daily" ∧
    dailyTask.schedule.time = some (3, 0) ∧
    (⟨2024, 5, 10, 3, 0, 0, 0⟩ : DateTime).valid = true ∧
    (⟨2024, 5, 10, 3, 0, 0, 0⟩ : DateTime).hour = 3 ∧
    (⟨2024, 5, 10, 3, 0, 0, 0⟩ : DateTime).minute = 0 ∧
    DateTime.key ⟨2024, 5, 10, 3, 0, 0, 0⟩
      ≤ DateTime.key ⟨2024, 5, 10, 3, 0, 0, 0⟩ ∧
    calculate_next_run dailyTask ⟨2024, 5, 10, 3, 0, 0, 0⟩
      = .ok (some ⟨2024, 5, 11, 3, 0, 0, 0⟩) :=
  ⟨rfl, rfl, rfl, rfl, rfl, rfl, le_refl _, rfl⟩

/-- C8 amended: for a daily schedule at a valid hour:minute, the computed
next_run is the least valid occurrence of that hour:minute strictly after
`now` — rolling to the same time tomorrow when today's occurrence is at or
before `now` — so 03:00 computed at 05:00 on day N yields 03:00 on day
N+1, and computed at 02:00 on day N yields 03:00 on day N. -/
theorem daily_next_run_strictly_after (task : STask) (now : DateTime)
    (h mi : Nat) (hen : task.enabled.getD true = true)
    (hty : task.schedule.stype.getD "daily" = "daily")
    (htime : task.schedule.time = some (h, mi))
    (hh : h < 24) (hm : mi < 60) (hval : now.valid = true) :
    calculate_next_run task now = .ok (some (dailyNext now h mi)) ∧
    (dailyNext now h mi).valid = true ∧ (dailyNext now h mi).hour = h ∧
    (dailyNext now h mi).minute = mi ∧ (dailyNext now h mi).second = 0 ∧
    (dailyNext now h mi).usec = 0 ∧ now.key < (dailyNext now h mi).key ∧
    ∀ u : DateTime, u.valid = true → u.hour = h → u.minute = mi →
      u.second = 0 → u.usec = 0 → now.key < u.key →
      (dailyNext now h mi).key ≤ u.key := by
  have hd := dailyNext_correct now h mi hh hm hval
  refine ⟨?_, hd.1, hd.2.1, hd.2.2.1, hd.2.2.2.1, hd.2.2.2.2.1,
    hd.2.2.2.2.2.1, hd.2.2.2.2.2.2⟩
  unfold calculate_next_run
  rw [hen]
  simp [hty, htime, hh, hm]

/-- Witness for C8's amended statement, covering both worked examples of
the claim: the daily 03:00 schedule computed at 2024-05-10 05:00 yields
2024-05-11 03:00 (next day), computed at 2024-05-10 02:00 yields
2024-05-10 03:00 (same day), and the result is strictly after the
reference time. -/
theorem daily_next_run_strictly_after_witness :
    calculate_next_run dailyTask ⟨2024, 5, 10, 5, 0, 0, 0⟩
      = .ok (some (dailyNext ⟨2024, 5, 10, 5, 0, 0, 0⟩ 3 0)) ∧
    dailyNext ⟨2024, 5, 10, 5, 0, 0, 0⟩ 3 0 = ⟨2024, 5, 11, 3, 0, 0, 0⟩ ∧
    dailyNext ⟨2024, 5, 10, 2, 0, 0, 0⟩ 3 0 = ⟨2024, 5, 10, 3, 0, 0, 0⟩ ∧
    DateTime.key ⟨2024, 5, 10, 5, 0, 0, 0⟩
      < DateTime.key (dailyNext ⟨2024, 5, 10, 5, 0, 0, 0⟩ 3 0) := by
  have h := daily_next_run_strictly_after dailyTask ⟨2024, 5, 10, 5, 0, 0, 0⟩
    3 0 rfl rfl rfl (by decide) (by decide) (by decide)
  exact ⟨h.1, by decide, by decide, h.2.2.2.2.2.2.1⟩

theorem key_decomp2 (t : DateTime) :
    t.key = t.ymKey * 2678400000000 + (t.day - 1) * 86400000000
      + (((t.hour * 60 + t.minute) * 60 + t.second) * 1000000 + t.usec) := by
  unfold DateTime.key DateTime.ymKey
  ring

theorem key_lt_of_ymKey_lt {a b : DateTime} (ha : a.valid = true)
    (hb : b.valid = true) (h : a.ymKey < b.ymKey) : a.key < b.key := by
  have ea := key_decomp2 a
  have eb := key_decomp2 b
  obtain ⟨a1, a2, a3, a4, a5, a6, a7, a8⟩ := valid_bounds ha
  obtain ⟨b1, b2, b3, b4, b5, b6, b7, b8⟩ := valid_bounds hb
  have ha31 : a.day ≤ 31 := le_trans a4 (daysInMonth_le_31 a.year a.month)
  omega

theorem mkDatetime_some {y m d hh mm : Nat} {t : DateTime}
    (h : mkDatetime y m d hh mm = some t) :
    t = ⟨y, m, d, hh, mm, 0, 0⟩ ∧ t.valid = true := by
  have h' : (if (DateTime.mk y m d hh mm 0 0).valid = true
      then some (DateTime.mk y m d hh mm 0 0) else none) = some t := h
  split at h'
  · cases h'
    constructor
    · rfl
    · assumption
  · cases h'

theorem monthlyGo_sound (now : DateTime) (d h mi : Nat) (fuel : Nat) :
    ∀ (y m : Nat), 1 ≤ m → m ≤ 12 → ∀ t : DateTime,
      monthlyGo now d h mi fuel y m = some t →
      mkDatetime t.year t.month d h mi = some t ∧ now.key < t.key ∧
      y * 12 + (m - 1) ≤ t.ymKey ∧
      ∀ j, y * 12 + (m - 1) ≤ j → j < t.ymKey → ∀ u : DateTime,
        u.valid = true → u.ymKey = j → u.day = d → u.hour = h →
        u.minute = mi → u.second = 0 → u.usec = 0 → u.key ≤ now.key := by
  induction fuel with
  | zero =>
      intro y m _ _ t ht
      simp [monthlyGo] at ht
  | succ n ih =>
      intro y m hm1 hm2 t ht
      rw [monthlyGo] at ht
      split at ht
      case _ c hc =>
        obtain ⟨hceq, hcv⟩ := mkDatetime_some hc
        subst hceq
        split at ht
        case _ hlt =>
          have hteq : DateTime.mk y m d h mi 0 0 = t := by injection ht
          subst hteq
          have eym : (DateTime.mk y m d h mi 0 0).ymKey
              = y * 12 + (m - 1) := rfl
          refine ⟨hc, hlt, by omega, ?_⟩
          intro j hj1 hj2 u _ _ _ _ _ _ _
          omega
        case _ hlt =>
          have step : ∀ y' m', 1 ≤ m' → m' ≤ 12 →
              y' * 12 + (m' - 1) = y * 12 + (m - 1) + 1 →
              monthlyGo now d h mi n y' m' = some t →
              mkDatetime t.year t.month d h mi = some t ∧ now.key < t.key ∧
              y * 12 + (m - 1) ≤ t.ymKey ∧
              ∀ j, y * 12 + (m - 1) ≤ j → j < t.ymKey → ∀ u : DateTime,
                u.valid = true → u.ymKey = j → u.day = d → u.hour = h →
                u.minute = mi → u.second = 0 → u.usec = 0 →
                u.key ≤ now.key := by
            intro y' m' hm1' hm2' hstart ht'
            obtain ⟨p1, p2, p3, p4⟩ := ih y' m' hm1' hm2' t ht'
            refine ⟨p1, p2, by omega, ?_⟩
            intro j hj1 hj2 u huv hymu hud huh humi hus huu
            by_cases hj : j = y * 12 + (m - 1)
            · obtain ⟨g1, g2, g3, g4, g5, g6, g7, g8⟩ := valid_bounds huv
              have eu := key_decomp2 u
              have eymu : u.ymKey = u.year * 12 + (u.month - 1) := rfl
              have ec : (DateTime.mk y m d h mi 0 0).key
                  = (((((y * 12 + (m - 1)) * 31 + (d - 1)) * 24 + h) * 60
                      + mi) * 60 + 0) * 1000000 + 0 := rfl
              omega
            · exact p4 j (by omega) hj2 u huv hymu hud huh humi hus huu
          split at ht
          case _ hm12 =>
            exact step y (m + 1) (by omega) (by omega) (by omega) ht
          case _ hm12 =>
            exact step (y + 1) 1 (by omega) (by omega) (by omega) ht
      case _ hc =>
        have step : ∀ y' m', 1 ≤ m' → m' ≤ 12 →
            y' * 12 + (m' - 1) = y * 12 + (m - 1) + 1 →
            monthlyGo now d h mi n y' m' = some t →
            mkDatetime t.year t.month d h mi = some t ∧ now.key < t.key ∧
            y * 12 + (m - 1) ≤ t.ymKey ∧
            ∀ j, y * 12 + (m - 1) ≤ j → j < t.ymKey → ∀ u : DateTime,
              u.valid = true → u.ymKey = j → u.day = d → u.hour = h →
              u.minute = mi → u.second = 0 → u.usec = 0 →
              u.key ≤ now.key := by
          intro y' m' hm1' hm2' hstart ht'
          obtain ⟨p1, p2, p3, p4⟩ := ih y' m' hm1' hm2' t ht'
          refine ⟨p1, p2, by omega, ?_⟩
          intro j hj1 hj2 u huv hymu hud huh humi hus huu
          by_cases hj : j = y * 12 + (m - 1)
          · exfalso
            obtain ⟨g1, g2, g3, g4, g5, g6, g7, g8⟩ := valid_bounds huv
            have eymu : u.ymKey = u.year * 12 + (u.month - 1) := rfl
            have hy : u.year = y := by omega
            have hmo : u.month = m := by omega
            have hdim : d ≤ daysInMonth y m := by
              rw [← hud, ← hy, ← hmo]
              exact g4
            have hv : (DateTime.mk y m d h mi 0 0).valid = true :=
              mk_valid _ _ _ _ _ _ _ hm1 hm2 (by omega) hdim (by omega)
                (by omega) (by omega) (by omega)
            have hc' : (if (DateTime.mk y m d h mi 0 0).valid = true
                then some (DateTime.mk y m d h mi 0 0) else none) = none := hc
            rw [if_pos hv] at hc'
            cases hc'
          · exact p4 j (by omega) hj2 u huv hymu hud huh humi hus huu
        split at ht
        case _ hm12 =>
          exact step y (m + 1) (by omega) (by omega) (by omega) ht
        case _ hm12 =>
          exact step (y + 1) 1 (by omega) (by omega) (by omega) ht

theorem monthlyGo_none (now : DateTime) (d h mi : Nat) (fuel : Nat) :
    ∀ (y m : Nat), 1 ≤ m → m ≤ 12 →
      monthlyGo now d h mi fuel y m = none →
      ∀ j, y * 12 + (m - 1) ≤ j → j < y * 12 + (m - 1) + fuel →
        ∀ u : DateTime, u.valid = true → u.ymKey = j → u.day = d →
          u.hour = h → u.minute = mi → u.second = 0 → u.usec = 0 →
          u.key ≤ now.key := by
  induction fuel with
  | zero =>
      intro y m _ _ _ j hj1 hj2 u _ _ _ _ _ _ _
      omega
  | succ n ih =>
      intro y m hm1 hm2 ht j hj1 hj2 u huv hymu hud huh humi hus huu
      obtain ⟨g1, g2, g3, g4, g5, g6, g7, g8⟩ := valid_bounds huv
      have eymu : u.ymKey = u.year * 12 + (u.month - 1) := rfl
      rw [monthlyGo] at ht
      split at ht
      case _ c hc =>
        obtain ⟨hceq, hcv⟩ := mkDatetime_some hc
        subst hceq
        split at ht
        case _ hlt => cases ht
        case _ hlt =>
          by_cases hj : j = y * 12 + (m - 1)
          · have eu := key_decomp2 u
            have ec : (DateTime.mk y m d h mi 0 0).key
                = (((((y * 12 + (m - 1)) * 31 + (d - 1)) * 24 + h) * 60
                    + mi) * 60 + 0) * 1000000 + 0 := rfl
            omega
          · split at ht
            case _ hm12 =>
              exact ih y (m + 1) (by omega) (by omega) ht j (by omega)
                (by omega) u huv hymu hud huh humi hus huu
            case _ hm12 =>
              exact ih (y + 1) 1 (by omega) (by omega) ht j (by omega)
                (by omega) u huv hymu hud huh humi hus huu
      case _ hc =>
        by_cases hj : j = y * 12 + (m - 1)
        · exfalso
          have hy : u.year = y := by omega
          have hmo : u.month = m := by omega
          have hdim : d ≤ daysInMonth y m := by
            rw [← hud, ← hy, ← hmo]
            exact g4
          have hv : (DateTime.mk y m d h mi 0 0).valid = true :=
            mk_valid _ _ _ _ _ _ _ hm1 hm2 (by omega) hdim (by omega)
              (by omega) (by omega) (by omega)
          have hc' : (if (DateTime.mk y m d h mi 0 0).valid = true
              then some (DateTime.mk y m d h mi 0 0) else none) = none := hc
          rw [if_pos hv] at hc'
          cases hc'
        · split at ht
          case _ hm12 =>
            exact ih y (m + 1) (by omega) (by omega) ht j (by omega)
              (by omega) u huv hymu hud huh humi hus huu
          case _ hm12 =>
            exact ih (y + 1) 1 (by omega) (by omega) ht j (by omega)
              (by omega) u huv hymu hud huh humi hus huu

/-- C9: for a monthly schedule the source scans forward month by month, at
most 12 attempts starting from the current month, and returns the first
calendar date that is valid and strictly after `now`; the result, when
present, is exactly the least valid occurrence of (day-of-month,
hour:minute) strictly after `now` — so a day-31 schedule computed in a
30-day month rolls to the next month that has a 31st — and when the scan
exhausts its 12 attempts the result is absent, which happens only if no
valid occurrence exists within the 12 scanned months. -/
theorem monthly_next_run_correct (task : STask) (now : DateTime)
    (d h mi : Nat) (hen : task.enabled.getD true = true)
    (hty : task.schedule.stype.getD "daily" = "monthly")
    (hdate : task.schedule.date = some d)
    (htime : task.schedule.time = some (h, mi))
    (hval : now.valid = true) :
    calculate_next_run task now = .ok (monthlyNext now d h mi) ∧
    (∀ t : DateTime, monthlyNext now d h mi = some t →
      t.valid = true ∧ t.day = d ∧ t.hour = h ∧ t.minute = mi ∧
      t.second = 0 ∧ t.usec = 0 ∧ now.key < t.key ∧
      ∀ u : DateTime, u.valid = true → u.day = d → u.hour = h →
        u.minute = mi → u.second = 0 → u.usec = 0 → now.key < u.key →
        t.key ≤ u.key) ∧
    (monthlyNext now d h mi = none →
      ∀ u : DateTime, u.valid = true → u.day = d → u.hour = h →
        u.minute = mi → u.second = 0 → u.usec = 0 → now.key < u.key →
        now.ymKey + 12 ≤ u.ymKey) := by
  obtain ⟨n1, n2, n3, n4, n5, n6, n7, n8⟩ := valid_bounds hval
  have es : now.ymKey = now.year * 12 + (now.month - 1) := rfl
  refine ⟨?_, ?_, ?_⟩
  · unfold calculate_next_run
    rw [hen]
    simp [hty, htime, hdate]
  · intro t hmt
    have hmt' : monthlyGo now d h mi 12 now.year now.month = some t := hmt
    obtain ⟨p1, p2, p3, p4⟩ :=
      monthlyGo_sound now d h mi 12 now.year now.month n1 n2 t hmt'
    obtain ⟨hteq, htv⟩ := mkDatetime_some p1
    have hd : t.day = d := by rw [hteq]
    have hth : t.hour = h := by rw [hteq]
    have htmi : t.minute = mi := by rw [hteq]
    have hts : t.second = 0 := by rw [hteq]
    have htu : t.usec = 0 := by rw [hteq]
    refine ⟨htv, hd, hth, htmi, hts, htu, p2, ?_⟩
    intro u huv hud huh humi hus huu hlt
    have hge : now.ymKey ≤ u.ymKey := by
      by_contra hcon
      have := key_lt_of_ymKey_lt huv hval (by omega)
      omega
    by_cases hcase : u.ymKey < t.ymKey
    · have := p4 u.ymKey (by omega) hcase u huv rfl hud huh humi hus huu
      omega
    · have et := key_decomp2 t
      have eu := key_decomp2 u
      rw [hd, hth, htmi, hts, htu] at et
      rw [hud, huh, humi, hus, huu] at eu
      omega
  · intro hnone u huv hud huh humi hus huu hlt
    have hnone' : monthlyGo now d h mi 12 now.year now.month = none := hnone
    have hge : now.ymKey ≤ u.ymKey := by
      by_contra hcon
      have := key_lt_of_ymKey_lt huv hval (by omega)
      omega
    by_contra hfar
    have := monthlyGo_none now d h mi 12 now.year now.month n1 n2 hnone'
      u.ymKey (by omega) (by omega) u huv rfl hud huh humi hus huu
    omega

/-- Witness for C9 at the claim's worked example: the day-31 monthly
schedule at 03:00 computed on 2024-04-15 (April has 30 days) rolls to
2024-05-31 03:00, which is valid and strictly after the reference time. -/
theorem monthly_next_run_correct_witness :
    monthlyNext ⟨2024, 4, 15, 12, 0, 0, 0⟩ 31 3 0
      = some ⟨2024, 5, 31, 3, 0, 0, 0⟩ ∧
    calculate_next_run monthlyTask ⟨2024, 4, 15, 12, 0, 0, 0⟩
      = .ok (some ⟨2024, 5, 31, 3, 0, 0, 0⟩) ∧
    (⟨2024, 5, 31, 3, 0, 0, 0⟩ : DateTime).valid = true ∧
    DateTime.key ⟨2024, 4, 15, 12, 0, 0, 0⟩
      < DateTime.key ⟨2024, 5, 31, 3, 0, 0, 0⟩ := by
  have H := monthly_next_run_correct monthlyTask ⟨2024, 4, 15, 12, 0, 0, 0⟩
    31 3 0 rfl rfl rfl rfl (by decide)
  have e : monthlyNext ⟨2024, 4, 15, 12, 0, 0, 0⟩ 31 3 0
      = some ⟨2024, 5, 31, 3, 0, 0, 0⟩ := by decide
  have H2 := H.2.1 _ e
  refine ⟨e, ?_, H2.1, H2.2.2.2.2.2.2.1⟩
  rw [H.1, e]

end Deq
